import Mathlib

/-!
Shallow embedding of the nextjs-ecs-poc repository.

The repository contains two pieces relevant to the claims:
* `ecs-nextjs-infra/lib/ecs-nextjs-infra-stack.ts` — the topology-synthesis
  core: one CDK stack constructor declaring a VPC (maxAzs 2), an ECS cluster,
  a versioned public-read S3 bucket with `BLOCK_ACLS`, a task execution role
  (one managed baseline policy plus one inline policy statement scoped to the
  bucket ARNs), a Fargate task definition (cpu 512, memory 1024, one container
  on port 3000 with awsLogs), and an ApplicationLoadBalancedFargateService
  with desiredCount 2.
* `ecs-nextjs-app/src/app/api/hello/route.ts` — a GET handler returning a JSON
  message built from the `name` query parameter.

The builder-level validation behaviour (the spec error taxonomy) lives in the
external `aws-cdk-lib` constructs, which are not part of the repository
sources; those parts are modelled from the spec, as marked on each definition.
The concrete values wired through the builders are taken from the stack source.
-/

/-- Error taxonomy of the topology-synthesis core (spec section 7):
fatal errors raised by the individual builders. -/
inductive BuildError where
  | configurationError
  | policyConflictError
  | scopeViolationError
  | invalidShapeError
deriving DecidableEq, Repr

/-- One subnet of the network: an address range (a start address and a size,
over abstract numeric addresses) and a public/private flag. -/
structure Subnet where
  rangeStart : Nat
  rangeSize : Nat
  isPublic : Bool
deriving DecidableEq, Repr

/-- Address `x` lies in the range of subnet `s`. -/
def Subnet.addrIn (s : Subnet) (x : Nat) : Prop :=
  s.rangeStart ≤ x ∧ x < s.rangeStart + s.rangeSize

/-- Two subnets are non-overlapping: no address lies in both ranges. -/
def subnetsDisjoint (s t : Subnet) : Prop :=
  ∀ x : Nat, ¬(s.addrIn x ∧ t.addrIn x)

/-- The network topology: the AZ count and the derived subnet list. -/
structure NetworkTopology where
  azCount : Nat
  subnets : List Subnet
deriving DecidableEq, Repr

/-- Provider maximum for the availability-zone count (spec: azCount must lie
in [1, provider maximum]). -/
def providerMaxAzs : Nat := 6

/-- Deterministic subnet derivation from a base CIDR: subnet number `j` gets
the `j`-th consecutive block of 256 addresses; even-numbered subnets are the
public one of each AZ pair, odd-numbered ones the private one. -/
def mkSubnet (j : Nat) : Subnet :=
  { rangeStart := 256 * j, rangeSize := 256, isPublic := j % 2 == 0 }

/-- Modelled from the spec: `NetworkBuilder.build` (spec section 4.1). The
subnet derivation is performed by the external `ec2.Vpc` construct of
`aws-cdk-lib`, which is not part of the repository sources; the stack only
passes `maxAzs`. Per the spec it produces one public and one private subnet
per AZ with non-overlapping deterministic ranges, and fails with
`ConfigurationError` when azCount is out of range. -/
def NetworkBuilder.build (azCount : Nat) : Except BuildError NetworkTopology :=
  if 1 ≤ azCount ∧ azCount ≤ providerMaxAzs then
    .ok { azCount := azCount, subnets := (List.range (2 * azCount)).map mkSubnet }
  else
    .error .configurationError

/-- The compute cluster: a non-owning reference to the network. -/
structure ComputeCluster where
  network : NetworkTopology
deriving DecidableEq, Repr

/-- `ClusterBuilder.build` (spec section 4.2): pure binding of the cluster to
the network, mirroring `new ecs.Cluster(this, ..., { vpc })` in the stack. -/
def ClusterBuilder.build (network : NetworkTopology) : ComputeCluster :=
  { network := network }

/-- Options of the asset store, mirroring the `s3.Bucket` properties used by
the stack: `versioned`, `publicReadAccess`, `RemovalPolicy.DESTROY`,
`autoDeleteObjects`, `BlockPublicAccess.BLOCK_ACLS`. -/
structure AssetStoreOpts where
  versioned : Bool
  publicRead : Bool
  destroyOnTeardown : Bool
  autoPurgeOnDestroy : Bool
  blockAclsOnly : Bool
deriving DecidableEq, Repr

/-- The built asset store handle: its flags together with its unique resource
identifier and the wildcard-object identifier used downstream by the role. -/
structure AssetStoreHandle where
  name : String
  versioned : Bool
  publicRead : Bool
  blockAclsOnly : Bool
  destroyOnTeardown : Bool
  autoPurgeOnDestroy : Bool
  arn : String
  wildcardArn : String
deriving DecidableEq, Repr

/-- Modelled from the spec: `AssetStore.build` (spec section 4.3). The
ACL-consistency validation is performed inside the external `s3.Bucket`
construct of `aws-cdk-lib`, not in the repository sources. Per the spec,
`publicRead` without `blockAclsOnly` fails with `PolicyConflictError`;
otherwise the handle exposes the resource identifier and the wildcard-object
identifier (the stack uses `bucketArn` and `bucketArn + "/*"`). -/
def AssetStore.build (name : String) (opts : AssetStoreOpts) :
    Except BuildError AssetStoreHandle :=
  if opts.publicRead && !opts.blockAclsOnly then
    .error .policyConflictError
  else
    .ok { name := name
          versioned := opts.versioned
          publicRead := opts.publicRead
          blockAclsOnly := opts.blockAclsOnly
          destroyOnTeardown := opts.destroyOnTeardown
          autoPurgeOnDestroy := opts.autoPurgeOnDestroy && opts.destroyOnTeardown
          arn := "arn:aws:s3:::" ++ name
          wildcardArn := "arn:aws:s3:::" ++ name ++ "/*" }

/-- One policy statement: a set of actions over a set of resources, mirroring
`new iam.PolicyStatement({ actions, resources })` in the stack. -/
structure PolicyStatement where
  actions : List String
  resources : List String
deriving DecidableEq, Repr

/-- The access role: trust principal, attached managed policies, and inline
policy statements, mirroring `iam.Role` plus `addManagedPolicy` and
`addToPolicy` in the stack. -/
structure AccessRole where
  trustPrincipal : String
  managedPolicies : List String
  statements : List PolicyStatement
deriving DecidableEq, Repr

/-- An action is a storage action when it belongs to the storage service
namespace (the stack uses the `s3:` action prefix). -/
def isStorageAction (a : String) : Bool :=
  a.take 3 == "s3:"

/-- Modelled from the spec: `AccessRoleBuilder.build` (spec section 4.4). The
least-privilege wildcard check is a spec-level invariant with no counterpart
in the repository sources (the stack always passes concrete bucket ARNs).
Per the spec it fails with `ScopeViolationError` when a resource scope of
`*` is passed for storage actions, and otherwise produces the role as the
baseline managed policies plus one explicit inline statement restricted to
the given scopes. -/
def AccessRoleBuilder.build (trustPrincipal : String)
    (managedBaselines : List String) (extraActions : List String)
    (resourceScopes : List String) : Except BuildError AccessRole :=
  if extraActions.any isStorageAction && resourceScopes.any (fun r => r == "*") then
    .error .scopeViolationError
  else
    .ok { trustPrincipal := trustPrincipal
          managedPolicies := managedBaselines
          statements := [{ actions := extraActions, resources := resourceScopes }] }

/-- The container/task specification produced by the task-spec builder,
mirroring `FargateTaskDefinition` plus `addContainer`/`addPortMappings` in the
stack (`logStreamName` embeds the awsLogs stream name option). -/
structure ContainerSpec where
  cpu : Nat
  memoryMiB : Nat
  role : AccessRole
  image : String
  containerPort : Nat
  portMappings : List Nat
  logStreamName : String
deriving DecidableEq, Repr

/-- Modelled from the spec: the fixed platform compatibility table of allowed
(cpu, memoryMiB) pairs (spec section 4.5). The table lives in the Fargate
platform / `aws-cdk-lib`, not in the repository sources; the spec pins the
512-CPU row to memory in 1024, 2048, 3072, 4096. -/
def fargateMemoryOptions (cpu : Nat) : List Nat :=
  if cpu = 256 then [512, 1024, 2048]
  else if cpu = 512 then [1024, 2048, 3072, 4096]
  else if cpu = 1024 then [2048, 3072, 4096, 5120, 6144, 7168, 8192]
  else if cpu = 2048 then (List.range 13).map (fun k => 4096 + 1024 * k)
  else if cpu = 4096 then (List.range 23).map (fun k => 8192 + 1024 * k)
  else []

/-- A (cpu, memoryMiB) pair is a valid task shape when it is in the fixed
compatibility table. -/
def validShape (cpu memoryMiB : Nat) : Bool :=
  (fargateMemoryOptions cpu).contains memoryMiB

/-- Modelled from the spec: `TaskSpecBuilder.build` (spec section 4.5). The
shape validation is performed by the external `FargateTaskDefinition`
construct, not in the repository sources. Per the spec, a pair outside the
table fails with `InvalidShapeError`; otherwise the spec carries exactly one
port mapping on the declared container port. -/
def TaskSpecBuilder.build (cpu memoryMiB : Nat) (role : AccessRole)
    (image : String) (containerPort : Nat) (logStreamName : String) :
    Except BuildError ContainerSpec :=
  if validShape cpu memoryMiB then
    .ok { cpu := cpu
          memoryMiB := memoryMiB
          role := role
          image := image
          containerPort := containerPort
          portMappings := [containerPort]
          logStreamName := logStreamName }
  else
    .error .invalidShapeError

/-- The service specification: cluster and task references, desired replica
count, and the always-attached load balancer front end, mirroring
`ApplicationLoadBalancedFargateService` in the stack. -/
structure ServiceSpec where
  cluster : ComputeCluster
  taskSpec : ContainerSpec
  desiredCount : Nat
  loadBalanced : Bool
deriving DecidableEq, Repr

/-- Modelled from the spec: `ServiceBuilder.build` (spec section 4.6). The
desired-count validation is a spec-level contract (the replication machinery
is in `aws-cdk-lib`, not in the repository sources). Per the spec,
desiredCount below 1 fails with `ConfigurationError`, and a load balancer is
always attached. -/
def ServiceBuilder.build (cluster : ComputeCluster) (taskSpec : ContainerSpec)
    (desiredCount : Nat) : Except BuildError ServiceSpec :=
  if 1 ≤ desiredCount then
    .ok { cluster := cluster
          taskSpec := taskSpec
          desiredCount := desiredCount
          loadBalanced := true }
  else
    .error .configurationError

/-- The trust principal of the execution role in the stack source. -/
def stackTrustPrincipal : String := "ecs-tasks.amazonaws.com"

/-- The managed baseline policy attached by `addManagedPolicy` in the stack
source. -/
def stackManagedBaselines : List String :=
  ["service-role/AmazonECSTaskExecutionRolePolicy"]

/-- The action list of the single inline policy statement added by
`addToPolicy` in the stack source (lines 41 to 55). -/
def stackInlineActions : List String :=
  ["ecr:GetAuthorizationToken",
   "ecr:BatchCheckLayerAvailability",
   "ecr:DescribeRepositories",
   "ecr:GetDownloadUrlForLayer",
   "logs:CreateLogStream",
   "logs:PutLogEvents",
   "s3:GetObject",
   "s3:ListBucket"]

/-- The provider-managed baseline permission set named by the spec: image
pull plus log delivery. -/
def specBaselineActions : List String :=
  ["ecr:GetAuthorizationToken",
   "ecr:BatchCheckLayerAvailability",
   "ecr:DescribeRepositories",
   "ecr:GetDownloadUrlForLayer",
   "logs:CreateLogStream",
   "logs:PutLogEvents"]

/-- The storage read/list actions named by the spec as the only storage
actions the role may carry. -/
def storageReadListActions : List String :=
  ["s3:GetObject", "s3:ListBucket"]

/-- The configuration surface of the topology (spec section 6): all plain
scalar/boolean inputs of the builder chain. -/
structure TopologyInputs where
  azCount : Nat
  storeName : String
  storeOpts : AssetStoreOpts
  cpu : Nat
  memoryMiB : Nat
  image : String
  containerPort : Nat
  logStreamName : String
  desiredCount : Nat
deriving DecidableEq, Repr

/-- The full declared topology produced by a successful build. -/
structure Topology where
  network : NetworkTopology
  cluster : ComputeCluster
  store : AssetStoreHandle
  role : AccessRole
  taskSpec : ContainerSpec
  service : ServiceSpec
deriving DecidableEq, Repr

/-- The full builder chain in the fixed dependency order of the stack
constructor (spec section 2): network, cluster, asset store, access role
(with the trust principal, managed baseline, inline action list and bucket
ARN scopes hard-coded in the stack source), task spec, service. Any builder
failure propagates and aborts the whole build. -/
def buildTopology (inp : TopologyInputs) : Except BuildError Topology :=
  match NetworkBuilder.build inp.azCount with
  | .error e => .error e
  | .ok network =>
    match AssetStore.build inp.storeName inp.storeOpts with
    | .error e => .error e
    | .ok store =>
      match AccessRoleBuilder.build stackTrustPrincipal stackManagedBaselines
          stackInlineActions [store.arn, store.wildcardArn] with
      | .error e => .error e
      | .ok role =>
        match TaskSpecBuilder.build inp.cpu inp.memoryMiB role inp.image
            inp.containerPort inp.logStreamName with
        | .error e => .error e
        | .ok taskSpec =>
          match ServiceBuilder.build (ClusterBuilder.build network) taskSpec
              inp.desiredCount with
          | .error e => .error e
          | .ok service =>
            .ok { network := network
                  cluster := ClusterBuilder.build network
                  store := store
                  role := role
                  taskSpec := taskSpec
                  service := service }

/-- The concrete input assignment of the stack source: maxAzs 2, the assets
bucket flags, cpu 512, memory 1024, the placeholder image, container port
3000, the awsLogs stream name, desiredCount 2. -/
def e2eInputs : TopologyInputs :=
  { azCount := 2
    storeName := "AssetsBucket"
    storeOpts :=
      { versioned := true
        publicRead := true
        destroyOnTeardown := true
        autoPurgeOnDestroy := true
        blockAclsOnly := true }
    cpu := 512
    memoryMiB := 1024
    image := "<container-image-uri>"
    containerPort := 3000
    logStreamName := "EcsNextJs"
    desiredCount := 2 }

/-- All builder-level validations of the chain hold for the given inputs:
azCount in range, bucket flags consistent, task shape in the table, desired
count at least 1. -/
def allValid (inp : TopologyInputs) : Prop :=
  (1 ≤ inp.azCount ∧ inp.azCount ≤ providerMaxAzs) ∧
  (inp.storeOpts.publicRead = true → inp.storeOpts.blockAclsOnly = true) ∧
  validShape inp.cpu inp.memoryMiB = true ∧
  1 ≤ inp.desiredCount

/-- Decidability of the bundled validations, so concrete inputs can be
checked by evaluation. -/
instance allValidDecidable (inp : TopologyInputs) : Decidable (allValid inp) :=
  inferInstanceAs (Decidable
    ((1 ≤ inp.azCount ∧ inp.azCount ≤ providerMaxAzs) ∧
     (inp.storeOpts.publicRead = true → inp.storeOpts.blockAclsOnly = true) ∧
     validShape inp.cpu inp.memoryMiB = true ∧
     1 ≤ inp.desiredCount))

/-- The JSON body returned by the hello route. -/
structure HelloResponse where
  message : String
deriving DecidableEq, Repr

/-- `searchParams.get(k)`: the value of the first query parameter named `k`,
or none when absent, over a request modelled as its query parameter list. -/
def searchParamsGet (ps : List (String × String)) (k : String) : Option String :=
  (ps.find? (fun p => p.fst == k)).map (fun p => p.snd)

/-- The JavaScript `x || 'Guest'` default of the route source: null and the
empty string are both falsy, so either yields the guest name. -/
def jsOrGuest (o : Option String) : String :=
  match o with
  | none => "Guest"
  | some s => if s == "" then "Guest" else s

/-- The GET handler of `ecs-nextjs-app/src/app/api/hello/route.ts`: reads the
`name` query parameter and returns the JSON greeting. -/
def helloGET (ps : List (String × String)) : HelloResponse :=
  { message := "Hello, " ++ jsOrGuest (searchParamsGet ps ("name")) ++ "!" }

/-- The asset store handle a successful build produces, as a total function. -/
def storeOf (inp : TopologyInputs) : AssetStoreHandle :=
  { name := inp.storeName
    versioned := inp.storeOpts.versioned
    publicRead := inp.storeOpts.publicRead
    blockAclsOnly := inp.storeOpts.blockAclsOnly
    destroyOnTeardown := inp.storeOpts.destroyOnTeardown
    autoPurgeOnDestroy := inp.storeOpts.autoPurgeOnDestroy && inp.storeOpts.destroyOnTeardown
    arn := "arn:aws:s3:::" ++ inp.storeName
    wildcardArn := "arn:aws:s3:::" ++ inp.storeName ++ "/*" }

def networkOf (inp : TopologyInputs) : NetworkTopology :=
  { azCount := inp.azCount
    subnets := (List.range (2 * inp.azCount)).map mkSubnet }

def roleOf (inp : TopologyInputs) : AccessRole :=
  { trustPrincipal := stackTrustPrincipal
    managedPolicies := stackManagedBaselines
    statements := [{ actions := stackInlineActions
                     resources := [(storeOf inp).arn, (storeOf inp).wildcardArn] }] }

def taskSpecOf (inp : TopologyInputs) : ContainerSpec :=
  { cpu := inp.cpu
    memoryMiB := inp.memoryMiB
    role := roleOf inp
    image := inp.image
    containerPort := inp.containerPort
    portMappings := [inp.containerPort]
    logStreamName := inp.logStreamName }

def topologyOf (inp : TopologyInputs) : Topology :=
  { network := networkOf inp
    cluster := { network := networkOf inp }
    store := storeOf inp
    role := roleOf inp
    taskSpec := taskSpecOf inp
    service := { cluster := { network := networkOf inp }
                 taskSpec := taskSpecOf inp
                 desiredCount := inp.desiredCount
                 loadBalanced := true } }

theorem arnPre_ne_star (s t : String) : ((("arn:aws:s3:::" ++ s) ++ t) == "*") = false := by
  simp only [beq_eq_false_iff_ne]
  intro h
  have h2 := congrArg String.length h
  rw [String.length_append, String.length_append] at h2
  have e1 : ("arn:aws:s3:::").length = 13 := rfl
  have e2 : ("*").length = 1 := rfl
  omega

theorem arn_ne_star (s : String) : (("arn:aws:s3:::" ++ s) == "*") = false := by
  have h := arnPre_ne_star s ("")
  simpa using h

theorem countP_even_range (n : Nat) :
    (List.range (2 * n)).countP (fun j => j % 2 == 0) = n := by
  induction n with
  | zero => simp
  | succ n ih =>
      have h2 : 2 * (n + 1) = (2 * n + 1) + 1 := by omega
      rw [h2, List.range_succ, List.range_succ, List.countP_append,
        List.countP_append, ih]
      have e1 : (2 * n) % 2 == 0 := by simp [Nat.mul_mod_right]
      have e2 : ((2 * n + 1) % 2 == 0) = false := by
        have h3 : (2 * n + 1) % 2 = 1 := by omega
        simp [h3]
      simp [List.countP_cons, e1, e2]

theorem countP_odd_range (n : Nat) :
    (List.range (2 * n)).countP (fun j => !(j % 2 == 0)) = n := by
  have h := List.length_eq_countP_add_countP (fun j => j % 2 == 0) (List.range (2 * n))
  rw [List.length_range, countP_even_range] at h
  have h2 : (List.range (2 * n)).countP (fun a => decide ¬(a % 2 == 0) = true) =
      (List.range (2 * n)).countP (fun j => !(j % 2 == 0)) := by
    apply List.countP_congr
    intro a _
    simp
  omega

theorem subnets_pairwise (n : Nat) :
    List.Pairwise subnetsDisjoint ((List.range (2 * n)).map mkSubnet) := by
  rw [List.pairwise_map]
  apply (List.pairwise_lt_range (2 * n)).imp
  intro j k hjk x hx
  obtain ⟨⟨a1, a2⟩, b1, b2⟩ := hx
  simp only [mkSubnet, Subnet.addrIn] at a1 a2 b1 b2
  omega

theorem roleBuild_in_chain (scopeA scopeB : String)
    (hA : (scopeA == "*") = false) (hB : (scopeB == "*") = false) :
    AccessRoleBuilder.build stackTrustPrincipal stackManagedBaselines
        stackInlineActions [scopeA, scopeB] =
      .ok { trustPrincipal := stackTrustPrincipal
            managedPolicies := stackManagedBaselines
            statements := [{ actions := stackInlineActions
                             resources := [scopeA, scopeB] }] } := by
  unfold AccessRoleBuilder.build
  rw [if_neg]
  simp [hA, hB]

theorem networkBuild_ok (n : Nat) (h : 1 ≤ n ∧ n ≤ providerMaxAzs) :
    NetworkBuilder.build n =
      .ok { azCount := n, subnets := (List.range (2 * n)).map mkSubnet } := by
  unfold NetworkBuilder.build
  rw [if_pos h]

theorem assetStoreBuild_ok (name : String) (opts : AssetStoreOpts)
    (h : opts.publicRead = true → opts.blockAclsOnly = true) :
    AssetStore.build name opts =
      .ok { name := name
            versioned := opts.versioned
            publicRead := opts.publicRead
            blockAclsOnly := opts.blockAclsOnly
            destroyOnTeardown := opts.destroyOnTeardown
            autoPurgeOnDestroy := opts.autoPurgeOnDestroy && opts.destroyOnTeardown
            arn := "arn:aws:s3:::" ++ name
            wildcardArn := "arn:aws:s3:::" ++ name ++ "/*" } := by
  unfold AssetStore.build
  rw [if_neg]
  intro hc
  simp only [Bool.and_eq_true, Bool.not_eq_true'] at hc
  rw [h hc.1] at hc
  exact absurd hc.2 (by simp)

theorem taskSpecBuild_ok (cpu memoryMiB : Nat) (role : AccessRole) (image : String)
    (containerPort : Nat) (logStreamName : String)
    (h : validShape cpu memoryMiB = true) :
    TaskSpecBuilder.build cpu memoryMiB role image containerPort logStreamName =
      .ok { cpu := cpu
            memoryMiB := memoryMiB
            role := role
            image := image
            containerPort := containerPort
            portMappings := [containerPort]
            logStreamName := logStreamName } := by
  unfold TaskSpecBuilder.build
  rw [if_pos h]

theorem serviceBuild_ok (cluster : ComputeCluster) (taskSpec : ContainerSpec)
    (desiredCount : Nat) (h : 1 ≤ desiredCount) :
    ServiceBuilder.build cluster taskSpec desiredCount =
      .ok { cluster := cluster
            taskSpec := taskSpec
            desiredCount := desiredCount
            loadBalanced := true } := by
  unfold ServiceBuilder.build
  rw [if_pos h]

theorem buildTopology_ok_of_valid (inp : TopologyInputs) (h : allValid inp) :
    buildTopology inp = .ok (topologyOf inp) := by
  obtain ⟨haz, hopts, hshape, hcount⟩ := h
  unfold buildTopology
  rw [networkBuild_ok _ haz]
  dsimp only
  rw [assetStoreBuild_ok _ _ hopts]
  dsimp only
  rw [roleBuild_in_chain _ _ (arn_ne_star inp.storeName)
    (arnPre_ne_star inp.storeName ("/*"))]
  dsimp only
  rw [taskSpecBuild_ok _ _ _ _ _ _ hshape]
  dsimp only
  rw [serviceBuild_ok _ _ _ hcount]
  rfl

theorem networkBuild_err (n : Nat) (h : ¬(1 ≤ n ∧ n ≤ providerMaxAzs)) :
    NetworkBuilder.build n = .error .configurationError := by
  unfold NetworkBuilder.build
  rw [if_neg h]

theorem assetStoreBuild_err (name : String) (opts : AssetStoreOpts)
    (h1 : opts.publicRead = true) (h2 : opts.blockAclsOnly = false) :
    AssetStore.build name opts = .error .policyConflictError := by
  unfold AssetStore.build
  rw [if_pos]
  simp [h1, h2]

theorem taskSpecBuild_err (cpu memoryMiB : Nat) (role : AccessRole) (image : String)
    (containerPort : Nat) (logStreamName : String)
    (h : validShape cpu memoryMiB = false) :
    TaskSpecBuilder.build cpu memoryMiB role image containerPort logStreamName =
      .error .invalidShapeError := by
  unfold TaskSpecBuilder.build
  rw [if_neg]
  simp [h]

theorem serviceBuild_err (cluster : ComputeCluster) (taskSpec : ContainerSpec)
    (desiredCount : Nat) (h : ¬1 ≤ desiredCount) :
    ServiceBuilder.build cluster taskSpec desiredCount = .error .configurationError := by
  unfold ServiceBuilder.build
  rw [if_neg h]

theorem buildTopology_error_of_invalid (inp : TopologyInputs) (h : ¬allValid inp) :
    ∃ e, buildTopology inp = .error e := by
  by_cases h1 : 1 ≤ inp.azCount ∧ inp.azCount ≤ providerMaxAzs
  · by_cases h2 : inp.storeOpts.publicRead = true → inp.storeOpts.blockAclsOnly = true
    · by_cases h3 : validShape inp.cpu inp.memoryMiB = true
      · by_cases h4 : 1 ≤ inp.desiredCount
        · exact absurd ⟨h1, h2, h3, h4⟩ h
        · refine ⟨.configurationError, ?_⟩
          unfold buildTopology
          rw [networkBuild_ok _ h1]
          dsimp only
          rw [assetStoreBuild_ok _ _ h2]
          dsimp only
          rw [roleBuild_in_chain _ _ (arn_ne_star inp.storeName)
            (arnPre_ne_star inp.storeName ("/*"))]
          dsimp only
          rw [taskSpecBuild_ok _ _ _ _ _ _ h3]
          dsimp only
          rw [serviceBuild_err _ _ _ h4]
      · refine ⟨.invalidShapeError, ?_⟩
        unfold buildTopology
        rw [networkBuild_ok _ h1]
        dsimp only
        rw [assetStoreBuild_ok _ _ h2]
        dsimp only
        rw [roleBuild_in_chain _ _ (arn_ne_star inp.storeName)
          (arnPre_ne_star inp.storeName ("/*"))]
        dsimp only
        rw [taskSpecBuild_err _ _ _ _ _ _ (by simpa using h3)]
    · refine ⟨.policyConflictError, ?_⟩
      rw [Classical.not_imp] at h2
      unfold buildTopology
      rw [networkBuild_ok _ h1]
      dsimp only
      rw [assetStoreBuild_err _ _ h2.1 (by simpa using h2.2)]
  · refine ⟨.configurationError, ?_⟩
    unfold buildTopology
    rw [networkBuild_err _ h1]

theorem buildTopology_ok_elim (inp : TopologyInputs) (t : Topology)
    (h : buildTopology inp = .ok t) : allValid inp ∧ t = topologyOf inp := by
  by_cases hv : allValid inp
  · refine ⟨hv, ?_⟩
    rw [buildTopology_ok_of_valid inp hv] at h
    exact (Except.ok.inj h).symm
  · obtain ⟨e, he⟩ := buildTopology_error_of_invalid inp hv
    rw [he] at h
    exact absurd h (by simp)

/-- Claim C1: a call to AccessRoleBuilder.build passing the wildcard resource
scope for storage actions fails with ScopeViolationError; a call passing a
concrete (wildcard-free) resource ARN list succeeds and the resulting policy
resource set equals exactly the input scopes. -/
theorem accessRoleBuilder_scope_invariant (trustPrincipal : String)
    (managedBaselines extraActions resourceScopes : List String) :
    ((∃ a ∈ extraActions, isStorageAction a = true) → "*" ∈ resourceScopes →
      AccessRoleBuilder.build trustPrincipal managedBaselines extraActions
        resourceScopes = .error .scopeViolationError) ∧
    ("*" ∉ resourceScopes →
      ∃ r, AccessRoleBuilder.build trustPrincipal managedBaselines extraActions
          resourceScopes = .ok r ∧
        r.statements.map PolicyStatement.resources = [resourceScopes]) := by
  constructor
  · rintro ⟨a, ha, hsa⟩ hw
    unfold AccessRoleBuilder.build
    rw [if_pos]
    simp only [Bool.and_eq_true, List.any_eq_true]
    exact ⟨⟨a, ha, hsa⟩, ⟨_, hw, by simp⟩⟩
  · intro hns
    have hcond : (resourceScopes.any fun r => r == "*") = false := by
      by_contra hc
      rw [Bool.not_eq_false, List.any_eq_true] at hc
      obtain ⟨r, hr, hrs⟩ := hc
      rw [beq_iff_eq] at hrs
      exact hns (hrs ▸ hr)
    refine ⟨{ trustPrincipal := trustPrincipal
              managedPolicies := managedBaselines
              statements := [{ actions := extraActions, resources := resourceScopes }] },
            ?_, rfl⟩
    unfold AccessRoleBuilder.build
    rw [if_neg]
    simp [hcond]

theorem accessRoleBuilder_scope_invariant_witness :
    AccessRoleBuilder.build stackTrustPrincipal stackManagedBaselines
      stackInlineActions ["*"] = .error .scopeViolationError ∧
    ∃ r, AccessRoleBuilder.build stackTrustPrincipal stackManagedBaselines
        stackInlineActions ["arn:aws:s3:::AssetsBucket", "arn:aws:s3:::AssetsBucket/*"] =
          .ok r ∧
      r.statements.map PolicyStatement.resources =
        [["arn:aws:s3:::AssetsBucket", "arn:aws:s3:::AssetsBucket/*"]] :=
  ⟨(accessRoleBuilder_scope_invariant _ _ _ _).1 (by decide) (by decide),
   (accessRoleBuilder_scope_invariant _ _ _ _).2 (by decide)⟩

/-- Claim C2: in every topology the build produces, the explicit inline
statement of the role is scoped exactly to the asset store identifiers, its
storage actions are read/list only (no write or delete), and every action of
every inline statement lies in the union of the storage read/list actions and
the provider-managed baseline (image pull plus log delivery). -/
theorem role_least_privilege (inp : TopologyInputs) (t : Topology)
    (h : buildTopology inp = .ok t) :
    (∀ s ∈ t.role.statements,
      s.resources = [t.store.arn, t.store.wildcardArn] ∧
      ∀ a ∈ s.actions, isStorageAction a = true → a ∈ storageReadListActions) ∧
    (∀ s ∈ t.role.statements, ∀ a ∈ s.actions,
      a ∈ storageReadListActions ∨ a ∈ specBaselineActions) := by
  obtain ⟨-, rfl⟩ := buildTopology_ok_elim inp t h
  constructor
  · intro s hs
    simp only [topologyOf, roleOf, List.mem_singleton] at hs
    subst hs
    exact ⟨rfl, fun a ha hsa =>
      (by decide : ∀ a ∈ stackInlineActions,
        isStorageAction a = true → a ∈ storageReadListActions) a ha hsa⟩
  · intro s hs a ha
    simp only [topologyOf, roleOf, List.mem_singleton] at hs
    subst hs
    exact (by decide : ∀ a ∈ stackInlineActions,
      a ∈ storageReadListActions ∨ a ∈ specBaselineActions) a ha

theorem role_least_privilege_witness :
    ∃ t, buildTopology e2eInputs = .ok t ∧
      ((∀ s ∈ t.role.statements,
        s.resources = [t.store.arn, t.store.wildcardArn] ∧
        ∀ a ∈ s.actions, isStorageAction a = true → a ∈ storageReadListActions) ∧
      (∀ s ∈ t.role.statements, ∀ a ∈ s.actions,
        a ∈ storageReadListActions ∨ a ∈ specBaselineActions)) :=
  ⟨_, rfl, role_least_privilege e2eInputs _ rfl⟩

/-- Claim C3: for every name and options, building the asset store with
publicRead and without blockAclsOnly fails with PolicyConflictError, and
building it with both publicRead and blockAclsOnly succeeds. -/
theorem assetStore_acl_consistency (name : String) (opts : AssetStoreOpts) :
    (opts.publicRead = true → opts.blockAclsOnly = false →
      AssetStore.build name opts = .error .policyConflictError) ∧
    (opts.publicRead = true → opts.blockAclsOnly = true →
      ∃ s, AssetStore.build name opts = .ok s ∧ s.publicRead = true) := by
  constructor
  · exact assetStoreBuild_err name opts
  · intro h1 h2
    refine ⟨_, assetStoreBuild_ok name opts (fun _ => h2), h1⟩

theorem assetStore_acl_consistency_witness :
    AssetStore.build ("AssetsBucket")
      { versioned := true, publicRead := true, destroyOnTeardown := true
        autoPurgeOnDestroy := true, blockAclsOnly := false } =
      .error .policyConflictError ∧
    ∃ s, AssetStore.build ("AssetsBucket")
        { versioned := true, publicRead := true, destroyOnTeardown := true
          autoPurgeOnDestroy := true, blockAclsOnly := true } = .ok s ∧
      s.publicRead = true :=
  ⟨(assetStore_acl_consistency _ _).1 rfl rfl,
   (assetStore_acl_consistency _ _).2 rfl rfl⟩

/-- Claim C4: for azCount between 1 and the provider maximum, the network
builder produces exactly 2 times azCount subnets, azCount public and azCount
private, with pairwise non-overlapping address ranges; outside that range it
fails with ConfigurationError. -/
theorem networkBuilder_subnet_layout (azCount : Nat) :
    (1 ≤ azCount → azCount ≤ providerMaxAzs →
      ∃ net, NetworkBuilder.build azCount = .ok net ∧
        net.subnets.length = 2 * azCount ∧
        net.subnets.countP (fun s => s.isPublic) = azCount ∧
        net.subnets.countP (fun s => !s.isPublic) = azCount ∧
        List.Pairwise subnetsDisjoint net.subnets) ∧
    (¬(1 ≤ azCount ∧ azCount ≤ providerMaxAzs) →
      NetworkBuilder.build azCount = .error .configurationError) := by
  constructor
  · intro h1 h2
    refine ⟨_, networkBuild_ok azCount ⟨h1, h2⟩, ?_, ?_, ?_, subnets_pairwise azCount⟩
    · simp
    · rw [List.countP_map]
      exact countP_even_range azCount
    · rw [List.countP_map]
      exact countP_odd_range azCount
  · exact networkBuild_err azCount

theorem networkBuilder_subnet_layout_witness :
    (∃ net, NetworkBuilder.build 2 = .ok net ∧
      net.subnets.length = 2 * 2 ∧
      net.subnets.countP (fun s => s.isPublic) = 2 ∧
      net.subnets.countP (fun s => !s.isPublic) = 2 ∧
      List.Pairwise subnetsDisjoint net.subnets) ∧
    NetworkBuilder.build 0 = .error .configurationError :=
  ⟨(networkBuilder_subnet_layout 2).1 (by decide) (by decide),
   (networkBuilder_subnet_layout 0).2 (by decide)⟩

/-- Claim C5: the task-spec builder succeeds exactly on the (cpu, memoryMiB)
pairs of the fixed platform compatibility table and fails with
InvalidShapeError on every other pair. -/
theorem taskSpecBuilder_shape_table (cpu memoryMiB : Nat) (role : AccessRole)
    (image : String) (containerPort : Nat) (logStreamName : String) :
    (validShape cpu memoryMiB = true →
      ∃ ts, TaskSpecBuilder.build cpu memoryMiB role image containerPort
        logStreamName = .ok ts) ∧
    (validShape cpu memoryMiB = false →
      TaskSpecBuilder.build cpu memoryMiB role image containerPort
        logStreamName = .error .invalidShapeError) := by
  constructor
  · intro h
    exact ⟨_, taskSpecBuild_ok _ _ _ _ _ _ h⟩
  · exact taskSpecBuild_err _ _ _ _ _ _

theorem taskSpecBuilder_shape_table_witness :
    validShape 512 1024 = true ∧
    validShape 512 512 = false ∧
    (∃ ts, TaskSpecBuilder.build 512 1024
      { trustPrincipal := stackTrustPrincipal
        managedPolicies := stackManagedBaselines
        statements := [] } ("img") 3000 ("EcsNextJs") = .ok ts) ∧
    TaskSpecBuilder.build 512 512
      { trustPrincipal := stackTrustPrincipal
        managedPolicies := stackManagedBaselines
        statements := [] } ("img") 3000 ("EcsNextJs") = .error .invalidShapeError :=
  ⟨by decide, by decide,
   (taskSpecBuilder_shape_table 512 1024 _ _ 3000 _).1 (by decide),
   (taskSpecBuilder_shape_table 512 512 _ _ 3000 _).2 (by decide)⟩

/-- Claim C6: the service builder fails with ConfigurationError whenever the
desired count is below 1 (in particular at 0) and succeeds for every desired
count of at least 1, always attaching the load balancer. -/
theorem serviceBuilder_desired_count (cluster : ComputeCluster)
    (taskSpec : ContainerSpec) (desiredCount : Nat) :
    (desiredCount < 1 →
      ServiceBuilder.build cluster taskSpec desiredCount =
        .error .configurationError) ∧
    (1 ≤ desiredCount →
      ∃ svc, ServiceBuilder.build cluster taskSpec desiredCount = .ok svc ∧
        svc.desiredCount = desiredCount ∧ svc.loadBalanced = true) := by
  constructor
  · intro h
    exact serviceBuild_err _ _ _ (by omega)
  · intro h
    exact ⟨_, serviceBuild_ok _ _ _ h, rfl, rfl⟩

theorem serviceBuilder_desired_count_witness :
    ServiceBuilder.build (ClusterBuilder.build (networkOf e2eInputs))
      (taskSpecOf e2eInputs) 0 = .error .configurationError ∧
    ∃ svc, ServiceBuilder.build (ClusterBuilder.build (networkOf e2eInputs))
        (taskSpecOf e2eInputs) 2 = .ok svc ∧
      svc.desiredCount = 2 ∧ svc.loadBalanced = true :=
  ⟨(serviceBuilder_desired_count _ _ 0).1 (by decide),
   (serviceBuilder_desired_count _ _ 2).2 (by decide)⟩

/-- Claim C7: running the full builder chain twice on identical inputs yields
two declarations that are structurally equal field by field. -/
theorem topology_build_idempotent (inp : TopologyInputs) (t₁ t₂ : Topology)
    (h₁ : buildTopology inp = .ok t₁) (h₂ : buildTopology inp = .ok t₂) :
    t₁.network = t₂.network ∧ t₁.cluster = t₂.cluster ∧ t₁.store = t₂.store ∧
    t₁.role = t₂.role ∧ t₁.taskSpec = t₂.taskSpec ∧ t₁.service = t₂.service := by
  rw [h₁] at h₂
  have h := Except.ok.inj h₂
  subst h
  exact ⟨rfl, rfl, rfl, rfl, rfl, rfl⟩

theorem topology_build_idempotent_witness :
    ∃ t₁ t₂, buildTopology e2eInputs = .ok t₁ ∧ buildTopology e2eInputs = .ok t₂ ∧
      (t₁.network = t₂.network ∧ t₁.cluster = t₂.cluster ∧ t₁.store = t₂.store ∧
       t₁.role = t₂.role ∧ t₁.taskSpec = t₂.taskSpec ∧ t₁.service = t₂.service) :=
  ⟨_, _, rfl, rfl, topology_build_idempotent e2eInputs _ _ rfl rfl⟩

/-- Claim C8, counterexample: on the end-to-end inputs of the stack the build
succeeds, but the role does not carry 2 inline statements — the stack attaches
the baseline as a managed policy and adds exactly one inline statement, so the
inline statement count is 1. -/
theorem e2e_two_inline_statements_false :
    ∃ t, buildTopology e2eInputs = .ok t ∧ ¬t.role.statements.length = 2 :=
  ⟨_, rfl, by decide⟩

/-- Claim C8 as amended: on inputs azCount 2, cpu 512, memory 1024,
desiredCount 2, publicRead with blockAclsOnly, the full topology build
succeeds and produces exactly 4 subnets (2 public), one cluster on the
network, one bucket with a public-read bucket policy, one role with exactly
one managed baseline policy and exactly one inline statement whose actions
are exactly the image-pull/log baseline actions together with the storage
read/list actions, scoped to the bucket identifiers, one task spec with
exactly one port mapping on the
declared container port 3000, and one service with 2 desired replicas fronted
by a load balancer. -/
theorem e2e_topology_build :
    ∃ t, buildTopology e2eInputs = .ok t ∧
      t.network.subnets.length = 4 ∧
      t.network.subnets.countP (fun s => s.isPublic) = 2 ∧
      t.cluster.network = t.network ∧
      t.store.publicRead = true ∧
      t.store.blockAclsOnly = true ∧
      t.role.managedPolicies.length = 1 ∧
      t.role.statements.length = 1 ∧
      (∀ s ∈ t.role.statements,
        s.actions = specBaselineActions ++ storageReadListActions ∧
        s.resources = [t.store.arn, t.store.wildcardArn]) ∧
      t.taskSpec.portMappings = [t.taskSpec.containerPort] ∧
      t.taskSpec.containerPort = 3000 ∧
      t.service.desiredCount = 2 ∧
      t.service.loadBalanced = true ∧
      t.service.taskSpec = t.taskSpec ∧
      t.service.cluster = t.cluster :=
  ⟨_, rfl, by decide⟩

/-- Claim C9: the declaration is all-or-nothing — the build yields a topology
exactly when every builder validation holds, and on any input failing one of
them it aborts with an error and produces no topology. -/
theorem topology_all_or_nothing (inp : TopologyInputs) :
    ((∃ t, buildTopology inp = .ok t) ↔ allValid inp) ∧
    (¬allValid inp → ∃ e, buildTopology inp = .error e) := by
  constructor
  · constructor
    · rintro ⟨t, ht⟩
      exact (buildTopology_ok_elim inp t ht).1
    · intro hv
      exact ⟨_, buildTopology_ok_of_valid inp hv⟩
  · exact buildTopology_error_of_invalid inp

theorem topology_all_or_nothing_witness :
    ¬allValid { e2eInputs with desiredCount := 0 } ∧
    ∃ e, buildTopology { e2eInputs with desiredCount := 0 } = .error e :=
  ⟨by decide, (topology_all_or_nothing _).2 (by decide)⟩

/-- Claim C10: the hello route returns the JSON greeting built from the name
query parameter, and greets the guest whenever that parameter is absent or
empty. -/
theorem hello_route_greeting (ps : List (String × String)) :
    (searchParamsGet ps ("name") = none ∨ searchParamsGet ps ("name") = some ("") →
      helloGET ps = { message := "Hello, Guest!" }) ∧
    (∀ v, searchParamsGet ps ("name") = some v → ¬v = "" →
      helloGET ps = { message := "Hello, " ++ v ++ "!" }) := by
  constructor
  · intro h
    unfold helloGET jsOrGuest
    rcases h with h | h <;> rw [h] <;> simp
  · intro v hv hne
    unfold helloGET jsOrGuest
    rw [hv]
    have h2 : (v == "") = false := by
      simp [hne]
    simp [h2]

theorem hello_route_greeting_witness :
    helloGET [] = { message := "Hello, Guest!" } ∧
    helloGET [(("name"), (""))] = { message := "Hello, Guest!" } ∧
    helloGET [(("name"), ("Ada"))] = { message := "Hello, Ada!" } :=
  ⟨(hello_route_greeting []).1 (Or.inl rfl),
   (hello_route_greeting [(("name"), (""))]).1 (Or.inr rfl),
   (hello_route_greeting [(("name"), ("Ada"))]).2 ("Ada") rfl (by decide)⟩
